import Mathlib

/-!
Verification of the `helpers` structured-logging facade (src/logger.go).

The file shallowly embeds the facade: the zap backend is external (the spec
treats it as an external collaborator), so a log call is modelled as the
emission request it hands to the backend, and backend construction
(`zap.Config.Build`) is modelled by an external failure oracle.  All
definitions follow src/logger.go; line references are given per definition.
-/

namespace Helpers

/-- Severity levels of the zap backend (zapcore.Level), mirrored with their
numeric order via `toInt` (Debug = -1 .. Fatal = 5).  The DPanic/Panic levels
(3 and 4) are never mentioned by the facade and are omitted. -/
inductive ZapLevel where
  | debug
  | info
  | warn
  | error
  | fatal
deriving DecidableEq, Repr

/-- Numeric value of a zapcore level (zapcore: Debug = -1, Info = 0,
Warn = 1, Error = 2, Fatal = 5). -/
def ZapLevel.toInt : ZapLevel → Int
  | .debug => -1
  | .info => 0
  | .warn => 1
  | .error => 2
  | .fatal => 5

/-- Go `map[string]interface{}` field maps, as association lists.  The
`interface{}` values are abstracted as strings; no facade behaviour inspects
them.  A Go nil map is `Option.none` at use sites, a present (possibly empty)
map is `Option.some`. -/
abbrev Fields := List (String × String)

/-- One emission request handed to the zap backend: the structured record a
`Log<Level>` call produces.  `error = some s` models the `zap.Any("error", s)`
entry (present only in `LogError` records); `fields = none` models the fields
key being absent from the record, `fields = some m` models a present fields
key carrying the object `m`.  Backend-side level filtering and encoding are
external and not modelled. -/
structure Record where
  level : ZapLevel
  message : String
  error : Option String
  requestId : String
  fields : Option Fields
deriving DecidableEq, Repr

/-- src/logger.go:11 `LogLevelInfo = "info"`. -/
def LogLevelInfo : String := "info"

/-- src/logger.go:12 `LogLevelDebug = "debug"`. -/
def LogLevelDebug : String := "debug"

/-- src/logger.go:13 `LogLevelError = "error"`. -/
def LogLevelError : String := "error"

/-- src/logger.go:15 `LogFormatJSON = "json"`. -/
def LogFormatJSON : String := "json"

/-- src/logger.go:16 `LogFormatText = "text"`. -/
def LogFormatText : String := "text"

/-- Request id used by the facade for its own fallback records
(src/logger.go:61,75).  The constant is declared elsewhere in the repository
(not under src/); its concrete value is immaterial to every property proved
here, which use it only symbolically. -/
def internalRequestID : String := "internal"

/-- src/logger.go:142-148 `logger.LogInfo`: the Info-severity record the call
emits.  The fields key is included exactly when the Go map is non-nil. -/
def logger.LogInfo (requestID message : String) (fields : Option Fields) : Record :=
  { level := .info, message := message, error := none,
    requestId := requestID, fields := fields }

/-- src/logger.go:128-134 `logger.LogWarn`: the Warn-severity record emitted. -/
def logger.LogWarn (requestID message : String) (fields : Option Fields) : Record :=
  { level := .warn, message := message, error := none,
    requestId := requestID, fields := fields }

/-- src/logger.go:156-162 `logger.LogDebug`: the Debug-severity record emitted. -/
def logger.LogDebug (requestID message : String) (fields : Option Fields) : Record :=
  { level := .debug, message := message, error := none,
    requestId := requestID, fields := fields }

/-- src/logger.go:170-176 `logger.LogFatal`: the Fatal-severity record emitted
(the backend's subsequent process termination is external). -/
def logger.LogFatal (requestID message : String) (fields : Option Fields) : Record :=
  { level := .fatal, message := message, error := none,
    requestId := requestID, fields := fields }

/-- src/logger.go:81-84 `type Error struct`: the LoggedError wrapper carrying
the user-facing message and the original raw error string. -/
structure Error where
  message : String
  rawError : String
deriving DecidableEq, Repr

/-- src/logger.go:87-89 `NewError`. -/
def NewError (message rawError : String) : Error :=
  { message := message, rawError := rawError }

/-- src/logger.go:91-93 `func (e Error) RawError() string`. -/
def Error.RawError (e : Error) : String :=
  e.rawError

/-- src/logger.go:95-97 `func (e Error) Error() string`. -/
def Error.Error (e : Error) : String :=
  e.message

/-- A non-nil Go `error` interface value, by dynamic type:
`loggedError v` is a value of the concrete type `helpers.Error`;
`ptrLoggedError v` is a `*helpers.Error` pointing at `v`;
`other s` is any foreign error whose `Error()` method yields `s`
(e.g. `errors.New(s)`); `wrapped s cause` is a foreign wrapper whose
`Error()` yields `s` while holding `cause` underneath (e.g. `fmt.Errorf`).
A nil interface is `Option.none` at use sites. -/
inductive GoError where
  | loggedError (v : Error)
  | ptrLoggedError (v : Error)
  | other (s : String)
  | wrapped (s : String) (cause : GoError)
deriving DecidableEq, Repr

/-- The `Error()` method of the Go error interface, per dynamic type.  For
`*helpers.Error` the value receiver method is promoted, so it also returns the
message. -/
def GoError.errorMsg : GoError → String
  | .loggedError v => v.message
  | .ptrLoggedError v => v.message
  | .other s => s
  | .wrapped s _ => s

/-- The type assertion `err.(Error)` in src/logger.go:106: succeeds exactly
when the dynamic type is the concrete type `helpers.Error` (a nil interface or
any other dynamic type, including `*helpers.Error`, fails it). -/
def asError : Option GoError → Option Error
  | some (.loggedError v) => some v
  | _ => none

/-- The stringified cause used by `LogError` (src/logger.go:110-111): a nil
`err` is replaced by `errors.New("")`, whose `Error()` is the empty string;
otherwise `err.Error()`. -/
def causeString : Option GoError → String
  | none => ""
  | some g => g.errorMsg

/-- src/logger.go:105-120 `logger.LogError`: returns the Go `error` result
together with the list of records emitted (empty on the short-circuit path,
a single Error-severity record otherwise). -/
def logger.LogError (requestID message : String) (err : Option GoError)
    (fields : Option Fields) : GoError × List Record :=
  match asError err with
  | some value => (GoError.loggedError value, [])
  | none =>
      let errStr := causeString err
      (GoError.loggedError { message := message, rawError := errStr },
       [{ level := .error, message := message, error := some errStr,
          requestId := requestID, fields := fields }])

/-- src/logger.go:54-64 `getLogFormat`: the resolved zap encoding name and the
fallback records emitted while resolving (one `logger.LogInfo` record on the
default branch). -/
def getLogFormat (logFormat : String) : String × List Record :=
  if logFormat = LogFormatJSON then
    (LogFormatJSON, [])
  else if logFormat = LogFormatText then
    ("console", [])
  else
    (LogFormatJSON,
     [logger.LogInfo internalRequestID
        "Invalid log format provided switching to log format json" none])

/-- src/logger.go:66-78 `getLogLevel`: the resolved zapcore level and the
fallback records emitted while resolving. -/
def getLogLevel (logLevel : String) : ZapLevel × List Record :=
  if logLevel = LogLevelDebug then
    (.debug, [])
  else if logLevel = LogLevelInfo then
    (.info, [])
  else if logLevel = LogLevelError then
    (.error, [])
  else
    (.info,
     [logger.LogInfo internalRequestID
        "Invalid log level provided switching to log level info" none])

/-- The slice of `zap.Config` the facade reads or writes: encoding, level,
development flag, and the level-encoder choice (named after the zapcore
encoder functions). -/
structure ZapConfig where
  encoding : String
  level : ZapLevel
  development : Bool
  encodeLevel : String
deriving DecidableEq, Repr

/-- `zap.NewDevelopmentConfig()`: console encoding, Debug level, development
mode, CapitalLevelEncoder. -/
def NewDevelopmentConfig : ZapConfig :=
  { encoding := "console", level := .debug, development := true,
    encodeLevel := "capital" }

/-- `zap.NewProductionConfig()`: json encoding, Info level, production mode,
LowercaseLevelEncoder. -/
def NewProductionConfig : ZapConfig :=
  { encoding := "json", level := .info, development := false,
    encodeLevel := "lowercase" }

/-- src/logger.go:30-44, the configuration-resolution part of `InitLogger`:
base template from `isDev` (with the colorized level encoder when the format
is text, line 34-36), then `config.Encoding = getLogFormat(logFormat)` (line
40), then `config.Level.SetLevel(getLogLevel(loglevel))` (line 41), then
`configCb[0](&config)` when at least one callback is supplied (lines 42-44).
Returns the resolved config and the fallback records emitted, in emission
order. -/
def resolveConfig (loglevel logFormat : String) (isDev : Bool)
    (configCb : List (ZapConfig → ZapConfig)) : ZapConfig × List Record :=
  let base :=
    if isDev then
      if logFormat = LogFormatText then
        { NewDevelopmentConfig with encodeLevel := "capitalColor" }
      else
        NewDevelopmentConfig
    else
      NewProductionConfig
  let fr := getLogFormat logFormat
  let lr := getLogLevel loglevel
  let config : ZapConfig := { base with encoding := fr.1, level := lr.1 }
  let config2 :=
    match configCb with
    | [] => config
    | cb :: _ => cb config
  (config2, fr.2 ++ lr.2)

/-- The built `*zap.Logger`, retaining its level enabler — the only aspect the
facade's Enabled checks consult (src/logger.go:100-102 etc.). -/
structure ZapLogger where
  level : ZapLevel
deriving DecidableEq, Repr

/-- zapcore `LevelEnabler.Enabled(l)`: a record level `l` passes the threshold
when `l >= threshold` numerically. -/
def ZapLogger.enabled (zl : ZapLogger) (l : ZapLevel) : Bool :=
  zl.level.toInt ≤ l.toInt

/-- The package-level mutable state of src/logger.go: the global
`var zapLogger *zap.Logger` (line 24, `none` models a nil pointer) and the
target of the last `zap.RedirectStdLog` call (line 50). -/
structure LoggerState where
  zapLogger : Option ZapLogger
  stdLogTarget : Option ZapLogger
deriving DecidableEq, Repr

/-- src/logger.go:30-52 `InitLogger`.  Backend construction
`config.Build(zap.AddCallerSkip(1))` is external (zap); it is modelled by the
oracle `buildErr`: `buildErr c = some e` means Build fails with error `e` and
returns a nil logger, `buildErr c = none` means Build succeeds with a logger
enforcing `c.level`.  The Go multiple assignment `zapLogger, err =
config.Build(...)` (line 46) stores Build's logger result into the global
before the error check, so on failure the global becomes nil (`none`); on
success the global is replaced and the standard log stream redirected to it.
Returns the new state, the records emitted during resolution, and the Go
return value (`some e` for an error return, `none` for nil). -/
def InitLogger (st : LoggerState) (buildErr : ZapConfig → Option String)
    (loglevel logFormat : String) (isDev : Bool)
    (configCb : List (ZapConfig → ZapConfig)) :
    LoggerState × List Record × Option String :=
  let rc := resolveConfig loglevel logFormat isDev configCb
  match buildErr rc.1 with
  | some e => ({ st with zapLogger := none }, rc.2, some e)
  | none =>
      let zl : ZapLogger := { level := rc.1.level }
      ({ zapLogger := some zl, stdLogTarget := some zl }, rc.2, none)

/-- src/logger.go:100-102 `logger.LogErrorEnabled`, on the built logger. -/
def logger.LogErrorEnabled (zl : ZapLogger) : Bool :=
  zl.enabled .error

/-- src/logger.go:123-125 `logger.LogWarnEnabled`. -/
def logger.LogWarnEnabled (zl : ZapLogger) : Bool :=
  zl.enabled .warn

/-- src/logger.go:137-139 `logger.LogInfoEnabled`. -/
def logger.LogInfoEnabled (zl : ZapLogger) : Bool :=
  zl.enabled .info

/-- src/logger.go:151-153 `logger.LogDebugEnabled`. -/
def logger.LogDebugEnabled (zl : ZapLogger) : Bool :=
  zl.enabled .debug

/-- src/logger.go:165-167 `logger.LogFatalEnabled`. -/
def logger.LogFatalEnabled (zl : ZapLogger) : Bool :=
  zl.enabled .fatal

/-- The already-logged test of the spec's dedup contract: whether the type
assertion `err.(Error)` succeeds. -/
def isAlreadyLogged (err : Option GoError) : Bool :=
  (asError err).isSome

/-- Claim C1, counterexample: when the error value e is itself already a
LoggedError, the inner call `LogError(rid, msg, e, nil)` short-circuits and
emits zero Error-severity records, not exactly one as the claim states for
every error value e. -/
theorem logError_idempotent_counterexample :
    ¬ (logger.LogError "rid" "msg"
        (some (GoError.loggedError (NewError "m0" "r0"))) none).2.length = 1 := by
  decide

/-- Claim C1 (amended): for every request id rid, message msg, and error
value e that is not already a LoggedError, the inner call
`LogError(rid, msg, e, nil)` emits exactly one Error-severity record, and the
outer call `LogError(rid, msg, inner, nil)` emits no additional record and
returns exactly the value the inner call returned, unaltered. -/
theorem logError_idempotent (rid msg : String) (e : Option GoError)
    (h : isAlreadyLogged e = false) :
    (logger.LogError rid msg e none).2 =
      [{ level := .error, message := msg, error := some (causeString e),
         requestId := rid, fields := none }] ∧
    (logger.LogError rid msg (some (logger.LogError rid msg e none).1) none).1 =
      (logger.LogError rid msg e none).1 ∧
    (logger.LogError rid msg (some (logger.LogError rid msg e none).1) none).2 = [] := by
  have ha : asError e = none := by
    unfold isAlreadyLogged at h
    cases hx : asError e
    · rfl
    · rw [hx] at h
      simp at h
  have key : logger.LogError rid msg e none =
      (GoError.loggedError { message := msg, rawError := causeString e },
       [{ level := .error, message := msg, error := some (causeString e),
          requestId := rid, fields := none }]) := by
    unfold logger.LogError
    rw [ha]
  rw [key]
  exact ⟨rfl, rfl, rfl⟩

/-- Claim C1, witness: the amended idempotence claim at the concrete inputs
rid = "r1", msg = "m1", e = errors.New("boom"). -/
theorem logError_idempotent_witness :
    isAlreadyLogged (some (GoError.other "boom")) = false ∧
    ((logger.LogError "r1" "m1" (some (GoError.other "boom")) none).2 =
      [{ level := .error, message := "m1",
         error := some (causeString (some (GoError.other "boom"))),
         requestId := "r1", fields := none }] ∧
     (logger.LogError "r1" "m1"
        (some (logger.LogError "r1" "m1" (some (GoError.other "boom")) none).1) none).1 =
       (logger.LogError "r1" "m1" (some (GoError.other "boom")) none).1 ∧
     (logger.LogError "r1" "m1"
        (some (logger.LogError "r1" "m1" (some (GoError.other "boom")) none).1) none).2 = []) :=
  ⟨by decide, logError_idempotent "r1" "m1" (some (GoError.other "boom")) (by decide)⟩

/-- Claim C2 (code bug, exhibited): when backend construction fails,
InitLogger does return the non-nil error, but the Go multiple assignment
`zapLogger, err = config.Build(...)` has already overwritten the package-level
logger with Build's nil result, so the previously active instance does not
remain active: the global becomes nil. -/
theorem initLogger_build_failure_clobbers :
    (InitLogger { zapLogger := some { level := ZapLevel.info }, stdLogTarget := none }
        (fun _ => some "boom") "info" "json" false []).2.2 = some "boom" ∧
    (InitLogger { zapLogger := some { level := ZapLevel.info }, stdLogTarget := none }
        (fun _ => some "boom") "info" "json" false []).1.zapLogger = none ∧
    ({ zapLogger := some { level := ZapLevel.info }, stdLogTarget := none } :
        LoggerState).zapLogger ≠ none := by
  refine ⟨rfl, rfl, by decide⟩

/-- Claim C3: for every level string L other than "debug", "info", "error",
getLogLevel resolves to the Info threshold and emits exactly one informational
fallback record, and InitLogger's resolved configuration (no override
callback) carries the Info level, for every format F and dev flag d. -/
theorem getLogLevel_invalid_falls_back (L F : String) (d : Bool)
    (h1 : L ≠ "debug") (h2 : L ≠ "info") (h3 : L ≠ "error") :
    getLogLevel L =
      (ZapLevel.info,
       [logger.LogInfo internalRequestID
          "Invalid log level provided switching to log level info" none]) ∧
    (resolveConfig L F d []).1.level = ZapLevel.info := by
  have hg : getLogLevel L =
      (ZapLevel.info,
       [logger.LogInfo internalRequestID
          "Invalid log level provided switching to log level info" none]) := by
    simp [getLogLevel, LogLevelDebug, LogLevelInfo, LogLevelError, h1, h2, h3]
  exact ⟨hg, by simp [resolveConfig, hg]⟩

/-- Claim C3, witness: the invalid level "verbose" with format "json" and
production mode. -/
theorem getLogLevel_invalid_falls_back_witness :
    (("verbose" : String) ≠ "debug" ∧ ("verbose" : String) ≠ "info" ∧
      ("verbose" : String) ≠ "error") ∧
    (getLogLevel "verbose" =
      (ZapLevel.info,
       [logger.LogInfo internalRequestID
          "Invalid log level provided switching to log level info" none]) ∧
     (resolveConfig "verbose" "json" false []).1.level = ZapLevel.info) :=
  ⟨by decide,
   getLogLevel_invalid_falls_back "verbose" "json" false
     (by decide) (by decide) (by decide)⟩

/-- Claim C4: every format string F other than "json" and "text" resolves to
the json encoding with exactly one informational fallback record; "text"
resolves to the console encoding and "json" to json, each with no fallback
record; and the resolved configuration's encoding agrees in all three cases. -/
theorem getLogFormat_resolution (F L : String) (d : Bool)
    (h1 : F ≠ "json") (h2 : F ≠ "text") :
    getLogFormat F =
      ("json",
       [logger.LogInfo internalRequestID
          "Invalid log format provided switching to log format json" none]) ∧
    (resolveConfig L F d []).1.encoding = "json" ∧
    getLogFormat "text" = ("console", []) ∧
    getLogFormat "json" = ("json", []) ∧
    (resolveConfig L "text" d []).1.encoding = "console" ∧
    (resolveConfig L "json" d []).1.encoding = "json" := by
  have hg : getLogFormat F =
      ("json",
       [logger.LogInfo internalRequestID
          "Invalid log format provided switching to log format json" none]) := by
    simp [getLogFormat, LogFormatJSON, LogFormatText, h1, h2]
  refine ⟨hg, by simp [resolveConfig, hg], rfl, rfl, ?_, ?_⟩ <;>
    simp [resolveConfig, getLogFormat, LogFormatJSON, LogFormatText]

/-- Claim C4, witness: the invalid format "xml" with level "info" and
production mode. -/
theorem getLogFormat_resolution_witness :
    (("xml" : String) ≠ "json" ∧ ("xml" : String) ≠ "text") ∧
    (getLogFormat "xml" =
      ("json",
       [logger.LogInfo internalRequestID
          "Invalid log format provided switching to log format json" none]) ∧
     (resolveConfig "info" "xml" false []).1.encoding = "json" ∧
     getLogFormat "text" = ("console", []) ∧
     getLogFormat "json" = ("json", []) ∧
     (resolveConfig "info" "text" false []).1.encoding = "console" ∧
     (resolveConfig "info" "json" false []).1.encoding = "json") :=
  ⟨by decide, getLogFormat_resolution "xml" "info" false (by decide) (by decide)⟩

/-- Claim C5: after a successful InitLogger with level "error" (any format,
any dev flag, no override callback), the built logger's enabled-checks gate as
configured: LogDebugEnabled and LogInfoEnabled are false, LogErrorEnabled is
true. -/
theorem initLogger_error_level_gating (st : LoggerState)
    (buildErr : ZapConfig → Option String) (F : String) (d : Bool)
    (h : (InitLogger st buildErr "error" F d []).2.2 = none) :
    ∃ zl, (InitLogger st buildErr "error" F d []).1.zapLogger = some zl ∧
      logger.LogDebugEnabled zl = false ∧
      logger.LogInfoEnabled zl = false ∧
      logger.LogErrorEnabled zl = true := by
  have hgl : getLogLevel "error" = (ZapLevel.error, []) := by decide
  have hl : (resolveConfig "error" F d []).1.level = ZapLevel.error := by
    simp [resolveConfig, hgl]
  simp only [InitLogger] at h ⊢
  cases hb : buildErr (resolveConfig "error" F d []).1 with
  | some e =>
      rw [hb] at h
      simp at h
  | none =>
      refine ⟨_, rfl, ?_, ?_, ?_⟩ <;> rw [hl] <;> decide

/-- Claim C5, witness: a successful InitLogger with level "error", format
"json", production mode, a backend that always builds. -/
theorem initLogger_error_level_gating_witness :
    (InitLogger { zapLogger := none, stdLogTarget := none }
        (fun _ => none) "error" "json" false []).2.2 = none ∧
    ∃ zl, (InitLogger { zapLogger := none, stdLogTarget := none }
        (fun _ => none) "error" "json" false []).1.zapLogger = some zl ∧
      logger.LogDebugEnabled zl = false ∧
      logger.LogInfoEnabled zl = false ∧
      logger.LogErrorEnabled zl = true :=
  ⟨by decide,
   initLogger_error_level_gating { zapLogger := none, stdLogTarget := none }
     (fun _ => none) "json" false (by decide)⟩

/-- Claim C6: LogError with a nil error and nil fields returns normally,
emitting one Error-severity record whose error field is the empty string, and
returns a LoggedError whose rawError is the empty string. -/
theorem logError_nil_safety (rid msg : String) :
    logger.LogError rid msg none none =
      (GoError.loggedError (NewError msg ""),
       [{ level := .error, message := msg, error := some "",
          requestId := rid, fields := none }]) := rfl

/-- Claim C7: for every severity's log call, a nil fields map yields a record
with no fields key (modelled as `none`), while a present-but-empty map yields
a record whose fields key carries the empty object (`some []`); the two
emitted shapes are distinguishable. -/
theorem log_fields_omission (rid msg : String) :
    (logger.LogInfo rid msg none).fields = none ∧
    (logger.LogInfo rid msg (some [])).fields = some [] ∧
    (logger.LogWarn rid msg none).fields = none ∧
    (logger.LogWarn rid msg (some [])).fields = some [] ∧
    (logger.LogDebug rid msg none).fields = none ∧
    (logger.LogDebug rid msg (some [])).fields = some [] ∧
    (logger.LogFatal rid msg none).fields = none ∧
    (logger.LogFatal rid msg (some [])).fields = some [] ∧
    (logger.LogError rid msg none none).2.map Record.fields = [none] ∧
    (logger.LogError rid msg none (some [])).2.map Record.fields = [some []] ∧
    (some ([] : Fields) : Option Fields) ≠ none := by
  refine ⟨rfl, rfl, rfl, rfl, rfl, rfl, rfl, rfl, rfl, rfl, by simp⟩

/-- Claim C8: LogError always returns a LoggedError; when the input was not
already one, the result is exactly `NewError message cause` where cause is the
stringified error (empty for nil), and NewError's accessors return the message
and rawError it was built from. -/
theorem logError_returns_loggedError (rid msg r : String) (e : Option GoError)
    (fields : Option Fields) :
    (NewError msg r).Error = msg ∧ (NewError msg r).RawError = r ∧
    (logger.LogError rid msg e fields).1 =
      GoError.loggedError ((asError e).getD (NewError msg (causeString e))) := by
  refine ⟨rfl, rfl, ?_⟩
  cases he : asError e <;> simp [logger.LogError, he, NewError]

/-- Claim C9: of the variadic override callbacks, only the first is applied to
the resolved configuration — InitLogger with callbacks cb :: rest behaves
exactly as with [cb] alone, the resolved configuration is cb applied to the
callback-free resolution, and the emitted records are unchanged. -/
theorem initLogger_first_callback_only (st : LoggerState)
    (buildErr : ZapConfig → Option String) (L F : String) (d : Bool)
    (cb : ZapConfig → ZapConfig) (rest : List (ZapConfig → ZapConfig)) :
    InitLogger st buildErr L F d (cb :: rest) = InitLogger st buildErr L F d [cb] ∧
    (resolveConfig L F d (cb :: rest)).1 = cb (resolveConfig L F d []).1 ∧
    (resolveConfig L F d (cb :: rest)).2 = (resolveConfig L F d []).2 :=
  ⟨rfl, rfl, rfl⟩

/-- Claim C10: the already-logged check is the exact-type assertion: a pointer
to an Error, or a wrapper whose cause is any error, fails the assertion, so
LogError emits a fresh Error-severity record and returns a fresh LoggedError
built from the message and the value's own Error() string, instead of
short-circuiting. -/
theorem logError_exact_type_check (rid msg s : String) (v : Error) (w : GoError)
    (fields : Option Fields) :
    asError (some (GoError.ptrLoggedError v)) = none ∧
    logger.LogError rid msg (some (GoError.ptrLoggedError v)) fields =
      (GoError.loggedError (NewError msg v.message),
       [{ level := .error, message := msg, error := some v.message,
          requestId := rid, fields := fields }]) ∧
    asError (some (GoError.wrapped s w)) = none ∧
    logger.LogError rid msg (some (GoError.wrapped s w)) fields =
      (GoError.loggedError (NewError msg s),
       [{ level := .error, message := msg, error := some s,
          requestId := rid, fields := fields }]) :=
  ⟨rfl, rfl, rfl, rfl⟩

end Helpers
